import Mathlib

/-!
Verification model of the Heresay voice-notes application.

The embedding translates the workflow logic of `src/App.tsx`,
`src/components/VoiceRecorder.tsx`, the History component and the
Dictionary component into pure Lean functions. React `useState` cells
become fields of explicit state records; external collaborators
(microphone acquisition, the transcription and text-generation services,
the database client) become oracle parameters supplied to each step, so
that one call of the modelled function corresponds to one run of the
original handler with the given collaborator outcomes. Toast messages
are accumulated in a list; calls to each external service are counted.
-/

/-- An audio artifact (the finalized blob produced on recording stop). -/
abbrev Blob := String

/-- `VoiceNote` record, from `src/App.tsx` (interface VoiceNote). -/
structure VoiceNote where
  id : String
  originalText : String
  correctedText : String
  createdAt : String
  userId : String
deriving DecidableEq

/-- `DictionaryEntry` record, from `src/App.tsx`; the persisted rows carry
the snake-case field `correct_spelling` used at `VoiceRecorder.tsx` line 94. -/
structure DictionaryEntry where
  id : String
  word : String
  correct_spelling : String
  userId : String
  createdAt : String
deriving DecidableEq

/-- State of the `VoiceRecorder` component (`VoiceRecorder.tsx` lines 16-23),
extended with resource accounting: `activeStreams` counts microphone streams
acquired and not yet released, `deviceAcquisitions` counts `getUserMedia`
calls, `transcribeCalls` and `correctCalls` count invocations of the two AI
services, and `toasts` records the notifications shown. -/
structure RecState where
  isRecording : Bool
  isTranscribing : Bool
  isProcessing : Bool
  originalText : String
  correctedText : String
  audioBlob : Option Blob
  hasRecorder : Bool
  activeStreams : Nat
  deviceAcquisitions : Nat
  transcribeCalls : Nat
  correctCalls : Nat
  toasts : List String
deriving DecidableEq

/-- Initial recorder state: all `useState` initializers of `VoiceRecorder`. -/
def initRec : RecState :=
  { isRecording := false, isTranscribing := false, isProcessing := false,
    originalText := "", correctedText := "", audioBlob := none,
    hasRecorder := false, activeStreams := 0, deviceAcquisitions := 0,
    transcribeCalls := 0, correctCalls := 0, toasts := [] }

/-- `startRecording` (`VoiceRecorder.tsx` lines 25-48). `mediaOk` is the
outcome of `navigator.mediaDevices.getUserMedia`: on success a fresh stream
is acquired, a new `MediaRecorder` replaces `mediaRecorder.current` (without
releasing any previously acquired stream, which therefore stays active), and
recording starts; on failure only an error toast is shown. There is no guard
on `isRecording`. -/
def startRecording (mediaOk : Bool) (s : RecState) : RecState :=
  if mediaOk then
    { s with hasRecorder := true,
             activeStreams := s.activeStreams + 1,
             deviceAcquisitions := s.deviceAcquisitions + 1,
             isRecording := true,
             toasts := "Recording started" :: s.toasts }
  else
    { s with toasts := "Failed to start recording" :: s.toasts }

/-- `stopRecording` (`VoiceRecorder.tsx` lines 50-57): only when a recorder
exists and `isRecording` holds, the current stream tracks are stopped
(releasing that one stream) and recording ends; otherwise nothing happens. -/
def stopRecording (s : RecState) : RecState :=
  if s.hasRecorder && s.isRecording then
    { s with activeStreams := s.activeStreams - 1,
             isRecording := false,
             toasts := "Recording stopped" :: s.toasts }
  else s

/-- The record button (`VoiceRecorder.tsx` lines 157-168): disabled while
transcribing or processing; otherwise a click dispatches `stopRecording`
when recording and `startRecording` when idle. This is the only caller of
either function in the repository. -/
def recordButtonClick (mediaOk : Bool) (s : RecState) : RecState :=
  if s.isTranscribing || s.isProcessing then s
  else if s.isRecording then stopRecording s
  else startRecording mediaOk s

/-- A sequence of record-button clicks, each with its `getUserMedia` outcome. -/
def clickRun (events : List Bool) (s : RecState) : RecState :=
  events.foldl (fun st e => recordButtonClick e st) s

/-- The dictionary context string built in `correctText`
(`VoiceRecorder.tsx` lines 93-95). -/
def dictionaryContext (dict : List DictionaryEntry) : String :=
  if dict.length > 0 then
    "\n\nCustom Dictionary (use these correct spellings):\n" ++
      String.intercalate "\n"
        (dict.map (fun entry =>
          "- \"" ++ entry.word ++ "\" should be spelled as \"" ++
            entry.correct_spelling ++ "\""))
  else ""

/-- The full prompt sent to `blink.ai.generateText`
(`VoiceRecorder.tsx` lines 98-102). -/
def correctionPrompt (dict : List DictionaryEntry) (text : String) : String :=
  "Please correct the grammar, punctuation, and spelling in this transcribed text. Make it well-formatted and professional while preserving the original meaning and tone. Apply proper capitalization and sentence structure." ++
    dictionaryContext dict ++
    "\n\nOriginal text: \"" ++ text ++
    "\"\n\nReturn only the corrected text without any explanations or formatting."

/-- The JavaScript `String.prototype.trim()` applied at
`VoiceRecorder.tsx` line 107: removes leading and trailing whitespace. -/
def jsTrim (s : String) : String :=
  ⟨((s.data.dropWhile Char.isWhitespace).reverse.dropWhile Char.isWhitespace).reverse⟩

/-- `correctText` (`VoiceRecorder.tsx` lines 89-115). `ai` is the
text-generation collaborator, applied to the built prompt; `some corrected`
models a successful `generateText` call and `none` a thrown error. On
success `correctedText` becomes the trimmed result; on failure an error
toast is shown and `correctedText` falls back to the input `text` verbatim.
`isProcessing` is set for the duration and reset in the `finally` block. -/
def correctText (ai : String → Option String) (dict : List DictionaryEntry)
    (text : String) (s : RecState) : RecState :=
  let s1 := { s with isProcessing := true, correctCalls := s.correctCalls + 1 }
  match ai (correctionPrompt dict text) with
  | some corrected =>
      { s1 with correctedText := jsTrim corrected, isProcessing := false }
  | none =>
      { s1 with toasts := "Failed to correct text" :: s1.toasts,
                correctedText := text,
                isProcessing := false }

/-- `transcribeAudio` (`VoiceRecorder.tsx` lines 59-87). `transcriber` is the
speech-to-text collaborator (base64 conversion folded into it); on success
`originalText` is set and `correctText` runs on the transcript; on failure an
error toast is shown and nothing else changes. `isTranscribing` is reset in
the `finally` block either way. -/
def transcribeAudio (transcriber : Blob → Option String)
    (ai : String → Option String) (dict : List DictionaryEntry)
    (blob : Blob) (s : RecState) : RecState :=
  let s1 := { s with isTranscribing := true,
                     transcribeCalls := s.transcribeCalls + 1 }
  match transcriber blob with
  | some text =>
      let s2 := { s1 with originalText := text }
      let s3 := correctText ai dict text s2
      { s3 with isTranscribing := false }
  | none =>
      { s1 with toasts := "Failed to transcribe audio" :: s1.toasts,
                isTranscribing := false }

/-- The `onstop` handler (`VoiceRecorder.tsx` lines 35-39): the finalized
blob is stored via `setAudioBlob` and then transcribed. -/
def onStopHandler (transcriber : Blob → Option String)
    (ai : String → Option String) (dict : List DictionaryEntry)
    (blob : Blob) (s : RecState) : RecState :=
  transcribeAudio transcriber ai dict blob { s with audioBlob := some blob }

/-- `reprocessText` (`VoiceRecorder.tsx` lines 140-146): rejected with a
toast when `originalText` is empty, otherwise re-runs `correctText` on the
current `originalText`. -/
def reprocessText (ai : String → Option String) (dict : List DictionaryEntry)
    (s : RecState) : RecState :=
  if s.originalText = "" then
    { s with toasts := "No text to reprocess" :: s.toasts }
  else correctText ai dict s.originalText s

/-- State held by the `App` component (`App.tsx` lines 27-28), with counters
for `blink.db.voice_notes.create` and `blink.db.dictionary_entries.create`
invocations. -/
structure AppState where
  notes : List VoiceNote
  dictionary : List DictionaryEntry
  noteCreateCalls : Nat
  dictCreateCalls : Nat
deriving DecidableEq

/-- The record `blink.db.voice_notes.create` persists and echoes back with a
server-assigned id (`App.tsx` lines 77-82). -/
def newVoiceNote (newId uid now orig corr : String) : VoiceNote :=
  { id := newId, originalText := orig, correctedText := corr,
    createdAt := now, userId := uid }

/-- `addNote` (`App.tsx` lines 75-87). `createResult` is the database
collaborator outcome: `some newId` for a successful create (the returned row
is prepended to `notes`), `none` for a thrown error, which the surrounding
`catch` swallows (it only logs), so the caller never observes a failure. -/
def addNote (createResult : Option String) (uid now orig corr : String)
    (app : AppState) : AppState :=
  let app1 := { app with noteCreateCalls := app.noteCreateCalls + 1 }
  match createResult with
  | some newId =>
      { app1 with notes := newVoiceNote newId uid now orig corr :: app1.notes }
  | none => app1

/-- Combined state of the recorder component and the app. -/
structure Model where
  recSt : RecState
  app : AppState
deriving DecidableEq

/-- `saveNote` (`VoiceRecorder.tsx` lines 122-138) together with its
`onSaveNote` prop, which is `addNote`. When either text field is empty the
save is rejected with a toast and nothing else happens. Otherwise
`addNote` runs; since `addNote` catches its own store error and does not
rethrow, `await onSaveNote(...)` always resolves, so the success branch
(success toast, clearing both text fields and the audio blob) executes even
when the store create failed — the `catch` branch of `saveNote` is
unreachable. -/
def saveNote (createResult : Option String) (uid now : String)
    (m : Model) : Model :=
  if m.recSt.originalText = "" ∨ m.recSt.correctedText = "" then
    { m with recSt := { m.recSt with toasts := "No text to save" :: m.recSt.toasts } }
  else
    let app1 := addNote createResult uid now m.recSt.originalText
      m.recSt.correctedText m.app
    { recSt := { m.recSt with toasts := "Note saved!" :: m.recSt.toasts,
                              originalText := "",
                              correctedText := "",
                              audioBlob := none },
      app := app1 }

/-- The record `blink.db.dictionary_entries.create` persists
(`App.tsx` lines 91-96): the word is lowercased before the call. -/
def newDictEntry (newId uid now word correctSpelling : String) :
    DictionaryEntry :=
  { id := newId, word := word.toLower, correct_spelling := correctSpelling,
    userId := uid, createdAt := now }

/-- The comparator of `App.tsx` line 97:
`(a, b) => a.word.localeCompare(b.word)`, modelled by the order on
strings. -/
def dictLe (a b : DictionaryEntry) : Bool := a.word ≤ b.word

/-- `addDictionaryEntry` (`App.tsx` lines 89-101): on create success the
echoed entry is appended and the whole list re-sorted by word; a thrown
store error is caught and only logged. -/
def addDictionaryEntry (createResult : Option String)
    (uid now word correctSpelling : String) (app : AppState) : AppState :=
  let app1 := { app with dictCreateCalls := app.dictCreateCalls + 1 }
  match createResult with
  | some newId =>
      { app1 with dictionary :=
          (app1.dictionary ++ [newDictEntry newId uid now word correctSpelling]).mergeSort dictLe }
  | none => app1

/-- `deleteNote` (`App.tsx` lines 112-119): on store success the note with
the given id is filtered out; a thrown store error is caught and only
logged, never rethrown. -/
def deleteNote (deleteOk : Bool) (id : String) (app : AppState) : AppState :=
  if deleteOk then
    { app with notes := app.notes.filter (fun note => note.id != id) }
  else app

/-- Local state of the History component (its `selectedNote` cell). -/
structure HistoryState where
  selectedNote : Option VoiceNote
deriving DecidableEq

/-- `handleDeleteNote` of the History component together with its
`onDeleteNote` prop (`deleteNote`). Since `deleteNote` never rethrows, the
success path always runs: after the store call, if the selected note has the
deleted id the selection is cleared. -/
def handleDeleteNote (deleteOk : Bool) (id : String) (app : AppState)
    (hist : HistoryState) : AppState × HistoryState :=
  let app1 := deleteNote deleteOk id app
  let hist1 :=
    match hist.selectedNote with
    | some n => if n.id = id then { selectedNote := none } else hist
    | none => hist
  (app1, hist1)

/-- A concrete recorder state with both text fields populated, as after a
successful transcription and correction. -/
def sampleRec : RecState :=
  { initRec with originalText := "helo world", correctedText := "Hello, world." }

/-- A concrete empty app state. -/
def sampleApp : AppState :=
  { notes := [], dictionary := [], noteCreateCalls := 0, dictCreateCalls := 0 }

/-- A concrete model in the state just before a save: both text fields
populated, empty note list. -/
def readyModel : Model := { recSt := sampleRec, app := sampleApp }

/-- A concrete model with both text fields still empty. -/
def emptyModel : Model := { recSt := initRec, app := sampleApp }

/-- A concrete persisted note. -/
def sampleNote : VoiceNote := newVoiceNote "n1" "u1" "t1" "helo" "Hello."

/-- C1: if the Correction Client call fails, `correctText` sets
`correctedText` equal to the text passed to the correction step, character
for character, for every input text, and reports the failure with a toast. -/
theorem correctText_failure_fallback (ai : String → Option String)
    (dict : List DictionaryEntry) (text : String) (s : RecState)
    (h : ai (correctionPrompt dict text) = none) :
    (correctText ai dict text s).correctedText = text ∧
    "Failed to correct text" ∈ (correctText ai dict text s).toasts := by
  simp [correctText, h]

/-- Witness for C1: a failing correction oracle on a concrete transcript. -/
theorem correctText_failure_fallback_witness :
    (correctText (fun _ => none) [] "helo wrld" initRec).correctedText = "helo wrld" ∧
    "Failed to correct text" ∈ (correctText (fun _ => none) [] "helo wrld" initRec).toasts :=
  correctText_failure_fallback (fun _ => none) [] "helo wrld" initRec rfl

/-- C10: after a successful correction call `correctedText` equals the
provider result with leading and trailing whitespace removed, while the
failure fallback stores the input text verbatim, untrimmed. -/
theorem correctText_trims_success_verbatim_failure (dict : List DictionaryEntry)
    (text : String) (s : RecState) :
    (∀ ai : String → Option String, ∀ r : String,
        ai (correctionPrompt dict text) = some r →
        (correctText ai dict text s).correctedText = jsTrim r) ∧
    (∀ ai : String → Option String,
        ai (correctionPrompt dict text) = none →
        (correctText ai dict text s).correctedText = text) := by
  constructor
  · intro ai r h
    simp [correctText, h]
  · intro ai h
    simp [correctText, h]

/-- Witness for C10: a successful result with surrounding whitespace is
stored trimmed; a failing call stores the padded input unchanged. -/
theorem correctText_trims_witness :
    (correctText (fun _ => some "  Hello, world.  ") [] "helo" initRec).correctedText = "Hello, world." ∧
    (correctText (fun _ => none) [] "  padded  " initRec).correctedText = "  padded  " := by
  constructor
  · rw [(correctText_trims_success_verbatim_failure [] "helo" initRec).1
      (fun _ => some "  Hello, world.  ") "  Hello, world.  " rfl]
    decide
  · exact (correctText_trims_success_verbatim_failure [] "  padded  " initRec).2
      (fun _ => none) rfl

/-- C7: an explicit re-correct request with a non-empty transcript
re-invokes the Correction Client on the current `originalText` (one more
correction call), and the resulting `correctedText` is the fresh trimmed
result, identical whatever manual edits had been made to `correctedText`
since transcription: edits are discarded, never merged. -/
theorem reprocess_discards_edits (ai : String → Option String)
    (dict : List DictionaryEntry) (s : RecState) (r : String)
    (h : s.originalText ≠ "")
    (hr : ai (correctionPrompt dict s.originalText) = some r) :
    (reprocessText ai dict s).correctedText = jsTrim r ∧
    (reprocessText ai dict s).correctCalls = s.correctCalls + 1 ∧
    ∀ edit : String,
      (reprocessText ai dict { s with correctedText := edit }).correctedText = jsTrim r := by
  refine ⟨?_, ?_, ?_⟩
  · simp [reprocessText, h, correctText, hr]
  · simp [reprocessText, h, correctText, hr]
  · intro edit
    simp [reprocessText, h, correctText, hr]

/-- Witness for C7: re-correcting a concrete state replaces the manual
edit with the fresh trimmed correction. -/
theorem reprocess_discards_edits_witness :
    (reprocessText (fun _ => some " Hi there. ") [] sampleRec).correctedText = "Hi there." := by
  rw [(reprocess_discards_edits (fun _ => some " Hi there. ") [] sampleRec " Hi there. "
    (by decide) rfl).1]
  decide

/-- C6: when transcription fails after a stop, `originalText` is not set,
no correction call fires, exactly one transcription attempt is made (no
automatic retry), the captured audio blob reference set by the `onstop`
handler is retained, the error is surfaced as a toast, and the recorder
returns to a non-transcribing state. -/
theorem transcription_failure_recoverable (transcriber : Blob → Option String)
    (ai : String → Option String) (dict : List DictionaryEntry)
    (blob : Blob) (s : RecState) (h : transcriber blob = none) :
    (onStopHandler transcriber ai dict blob s).originalText = s.originalText ∧
    (onStopHandler transcriber ai dict blob s).correctedText = s.correctedText ∧
    (onStopHandler transcriber ai dict blob s).correctCalls = s.correctCalls ∧
    (onStopHandler transcriber ai dict blob s).transcribeCalls = s.transcribeCalls + 1 ∧
    (onStopHandler transcriber ai dict blob s).audioBlob = some blob ∧
    (onStopHandler transcriber ai dict blob s).isTranscribing = false ∧
    (onStopHandler transcriber ai dict blob s).isRecording = s.isRecording ∧
    "Failed to transcribe audio" ∈ (onStopHandler transcriber ai dict blob s).toasts := by
  simp [onStopHandler, transcribeAudio, h]

/-- Witness for C6: a failing transcriber on a concrete blob. -/
theorem transcription_failure_recoverable_witness :
    (onStopHandler (fun _ => none) (fun _ => none) [] "blobdata" initRec).originalText = "" ∧
    (onStopHandler (fun _ => none) (fun _ => none) [] "blobdata" initRec).correctCalls = 0 ∧
    (onStopHandler (fun _ => none) (fun _ => none) [] "blobdata" initRec).transcribeCalls = 1 ∧
    (onStopHandler (fun _ => none) (fun _ => none) [] "blobdata" initRec).audioBlob = some "blobdata" := by
  have h := transcription_failure_recoverable (fun _ => none) (fun _ => none) [] "blobdata" initRec rfl
  exact ⟨h.1, h.2.2.1, h.2.2.2.1, h.2.2.2.2.1⟩

/-- C3: when either text field is empty, save is rejected: no Note Store
create call is made, both text fields keep their values and the note list
(indeed the whole app state) is unchanged. -/
theorem saveNote_rejected_empty (createResult : Option String) (uid now : String)
    (m : Model) (h : m.recSt.originalText = "" ∨ m.recSt.correctedText = "") :
    (saveNote createResult uid now m).app.noteCreateCalls = m.app.noteCreateCalls ∧
    (saveNote createResult uid now m).app.notes = m.app.notes ∧
    (saveNote createResult uid now m).recSt.originalText = m.recSt.originalText ∧
    (saveNote createResult uid now m).recSt.correctedText = m.recSt.correctedText ∧
    (saveNote createResult uid now m).app = m.app := by
  rcases h with h | h <;> simp [saveNote, h]

/-- Witness for C3: a save attempted from the empty-fields state. -/
theorem saveNote_rejected_empty_witness :
    (saveNote (some "n1") "u1" "t1" emptyModel).app.noteCreateCalls = emptyModel.app.noteCreateCalls ∧
    (saveNote (some "n1") "u1" "t1" emptyModel).app.notes = emptyModel.app.notes ∧
    (saveNote (some "n1") "u1" "t1" emptyModel).recSt.originalText = emptyModel.recSt.originalText ∧
    (saveNote (some "n1") "u1" "t1" emptyModel).recSt.correctedText = emptyModel.recSt.correctedText ∧
    (saveNote (some "n1") "u1" "t1" emptyModel).app = emptyModel.app :=
  saveNote_rejected_empty (some "n1") "u1" "t1" emptyModel (Or.inl rfl)

/-- C5: evaluation of the save workflow at a failing store create. The
in-memory note list is indeed not updated, but both text fields are cleared
and a success toast is shown: `addNote` catches the store error and does not
rethrow, so `saveNote` cannot observe the failure and its failure branch is
dead code. -/
theorem saveNote_storeFailure_clears_fields :
    (saveNote none "u1" "t1" readyModel).app.notes = [] ∧
    (saveNote none "u1" "t1" readyModel).app.noteCreateCalls = 1 ∧
    (saveNote none "u1" "t1" readyModel).recSt.originalText = "" ∧
    (saveNote none "u1" "t1" readyModel).recSt.correctedText = "" ∧
    "Note saved!" ∈ (saveNote none "u1" "t1" readyModel).recSt.toasts := by
  decide

/-- C8: a successful save prepends the newly created note to the in-memory
note list and clears both text fields; from an empty list the result has
length 1 with the new note first. -/
theorem saveNote_success_clears_and_prepends (newId uid now : String) (m : Model)
    (h1 : m.recSt.originalText ≠ "") (h2 : m.recSt.correctedText ≠ "") :
    (saveNote (some newId) uid now m).app.notes =
      newVoiceNote newId uid now m.recSt.originalText m.recSt.correctedText :: m.app.notes ∧
    (saveNote (some newId) uid now m).recSt.originalText = "" ∧
    (saveNote (some newId) uid now m).recSt.correctedText = "" ∧
    (m.app.notes = [] →
      (saveNote (some newId) uid now m).app.notes.length = 1 ∧
      (saveNote (some newId) uid now m).app.notes.head? =
        some (newVoiceNote newId uid now m.recSt.originalText m.recSt.correctedText)) := by
  have hcond : ¬(m.recSt.originalText = "" ∨ m.recSt.correctedText = "") := by
    rintro (h | h)
    · exact h1 h
    · exact h2 h
  refine ⟨?_, ?_, ?_, ?_⟩ <;> simp [saveNote, hcond, addNote]

/-- Witness for C8: one successful save from the ready state with an empty
note list. -/
theorem saveNote_success_witness :
    (saveNote (some "n1") "u1" "t1" readyModel).app.notes.length = 1 ∧
    (saveNote (some "n1") "u1" "t1" readyModel).recSt.originalText = "" ∧
    (saveNote (some "n1") "u1" "t1" readyModel).recSt.correctedText = "" := by
  have h := saveNote_success_clears_and_prepends "n1" "u1" "t1" readyModel
    (by decide) (by decide)
  exact ⟨(h.2.2.2 rfl).1, h.2.1, h.2.2.1⟩

/-- C9: deleting a note (store delete succeeding) whose id equals the id of
the currently selected note clears the selection, and no note with that id
remains in the in-memory list. -/
theorem deleteNote_clears_selection (id : String) (app : AppState)
    (hist : HistoryState) (n : VoiceNote)
    (hsel : hist.selectedNote = some n) (hid : n.id = id) :
    (handleDeleteNote true id app hist).2.selectedNote = none ∧
    ∀ m ∈ (handleDeleteNote true id app hist).1.notes, m.id ≠ id := by
  constructor
  · simp [handleDeleteNote, hsel, hid]
  · intro m hm
    simp only [handleDeleteNote, deleteNote, if_true] at hm
    simp only [List.mem_filter, bne_iff_ne, ne_eq] at hm
    exact hm.2

/-- Witness for C9: deleting the concrete selected note. -/
theorem deleteNote_clears_selection_witness :
    (handleDeleteNote true "n1" { sampleApp with notes := [sampleNote] }
      { selectedNote := some sampleNote }).2.selectedNote = none :=
  (deleteNote_clears_selection "n1" { sampleApp with notes := [sampleNote] }
    { selectedNote := some sampleNote } sampleNote rfl rfl).1

/-- C2: every dictionary add persists the lowercased input word (the record
handed to the store carries `word.toLowerCase()`), and after a successful
add the in-memory dictionary list is sorted ascending by word. -/
theorem dictAdd_lowercase_sorted (newId uid now word correctSpelling : String)
    (app : AppState) :
    (newDictEntry newId uid now word correctSpelling).word = word.toLower ∧
    List.Pairwise (fun a b : DictionaryEntry => a.word ≤ b.word)
      (addDictionaryEntry (some newId) uid now word correctSpelling app).dictionary := by
  constructor
  · rfl
  · have htrans : ∀ a b c : DictionaryEntry, dictLe a b → dictLe b c → dictLe a c := by
      intro a b c h1 h2
      simp only [dictLe, decide_eq_true_eq] at h1 h2 ⊢
      exact le_trans h1 h2
    have htotal : ∀ a b : DictionaryEntry, dictLe a b || dictLe b a := by
      intro a b
      simp only [dictLe, Bool.or_eq_true, decide_eq_true_eq]
      exact le_total a.word b.word
    have hp := List.sorted_mergeSort htrans htotal
      (app.dictionary ++ [newDictEntry newId uid now word correctSpelling])
    simp only [addDictionaryEntry]
    exact hp.imp (fun h => by simpa [dictLe] using h)

/-- The resource invariant of the record tab: the number of acquired,
unreleased microphone streams is 1 while recording and 0 otherwise. -/
def streamInv (s : RecState) : Prop :=
  s.activeStreams = if s.isRecording then 1 else 0

/-- One record-button click preserves the stream invariant. -/
theorem streamInv_click (e : Bool) (s : RecState) (h : streamInv s) :
    streamInv (recordButtonClick e s) := by
  unfold streamInv at h ⊢
  unfold recordButtonClick stopRecording startRecording
  split_ifs <;> simp_all

/-- Any sequence of record-button clicks preserves the stream invariant. -/
theorem streamInv_clickRun (events : List Bool) (s : RecState)
    (h : streamInv s) : streamInv (clickRun events s) := by
  induction events generalizing s with
  | nil => exact h
  | cons e es ih => exact ih (recordButtonClick e s) (streamInv_click e s h)

/-- C4 counterexample: `startRecording` itself has no guard against an
active recording. Invoking it a second time while the first recording is
active (microphone available both times) acquires the device a second time
and leaves two acquired, unreleased streams — it is not a no-op. -/
theorem startRecording_while_recording_not_noop :
    (startRecording true initRec).isRecording = true ∧
    (startRecording true (startRecording true initRec)).activeStreams = 2 ∧
    (startRecording true (startRecording true initRec)).deviceAcquisitions = 2 ∧
    startRecording true (startRecording true initRec) ≠ startRecording true initRec := by
  decide

/-- C4 (amended): stopping while idle is a no-op, and through the record
button — the only caller of `startRecording` and `stopRecording` in the
repository, which dispatches stop whenever a recording is active — every
reachable state has at most one acquired, unreleased microphone stream. -/
theorem recordButton_single_session (events : List Bool) (s : RecState)
    (hidle : s.isRecording = false) :
    (clickRun events initRec).activeStreams ≤ 1 ∧ stopRecording s = s := by
  constructor
  · have h := streamInv_clickRun events initRec (by simp [streamInv, initRec])
    unfold streamInv at h
    rw [h]
    split <;> simp
  · simp [stopRecording, hidle]

/-- Witness for the amended C4: two attempted starts followed by a stop
leave at most one stream, and stop on the initial idle state is a no-op. -/
theorem recordButton_single_session_witness :
    (clickRun [true, true, false] initRec).activeStreams ≤ 1 ∧
    stopRecording initRec = initRec :=
  recordButton_single_session [true, true, false] initRec rfl
